import Mathlib

/-!
A shallow embedding of the multi-segment bioheat simulation engine
(`PhysiologyEngine` in `hypothermia_sim.py`) and proofs about it.

Python float arithmetic is modelled as exact rational arithmetic (ℚ);
decimal literals of the source are read as the exact rationals they denote,
and integral literals such as `80.0` are written `80`.
The barometric pressure formula uses a non-integer power, so it is modelled
over ℝ with `Real.rpow`; it only feeds the per-step report, never the
temperature state, so the state evolution stays computable over ℚ.
-/

/-- The six body segments, in the insertion order of the source's dict. -/
inductive SegName where
  | Head
  | Trunk
  | Arms
  | Hands
  | Legs
  | Feet
deriving DecidableEq

/-- Static physiological parameters of one segment (`self.segments` values). -/
structure SegParams where
  mass : ℚ
  area : ℚ
  vaso : ℚ
  solar_w : ℚ

/-- The fixed per-segment parameter table from `PhysiologyEngine.__init__`. -/
def segments : SegName → SegParams
  | .Head  => ⟨4.5, 0.14, 0.2, 0.3⟩
  | .Trunk => ⟨30, 0.55, 0.1, 0.5⟩
  | .Arms  => ⟨4, 0.26, 0.8, 0.2⟩
  | .Hands => ⟨0.4, 0.08, 3, 0⟩
  | .Legs  => ⟨12, 0.60, 0.8, 0.4⟩
  | .Feet  => ⟨1, 0.14, 3, 0⟩

/-- The segment names in the source's iteration order. -/
def segNames : List SegName := [.Head, .Trunk, .Arms, .Hands, .Legs, .Feet]

/-- Environmental conditions: the `env` dict of `run_step`. -/
structure Env where
  temp : ℚ
  wind : ℚ
  altitude : ℚ
  solar_rad : ℚ

/-- Climber configuration: the `climber` dict of `run_step`. -/
structure Climber where
  target_met : ℚ
  clo : ℚ
  is_wet : Bool
  o2_support : Bool

/-- The mutable engine state: per-segment temperature and history
(`self.state`), core temperature (`self.core_temp`) and its history
(`self.history_core`). -/
structure EngineState where
  segTemp : SegName → ℚ
  segHist : SegName → List ℚ
  core_temp : ℚ
  history_core : List ℚ

/-- Initial state built by `PhysiologyEngine.__init__`: every segment at
33.0 °C with a one-sample history, core at 37.0 °C with a one-sample
history. -/
def initState : EngineState :=
  { segTemp := fun _ => 33
    segHist := fun _ => [33]
    core_temp := 37
    history_core := [37] }

/-- Barometric pressure (hPa) from `calc_altitude_pressure`. -/
noncomputable def calc_altitude_pressure (altitude_m : ℚ) : ℝ :=
  1013.25 * ((1 - 2.25577e-5 * (altitude_m : ℝ)) ^ (5.25588 : ℝ))

/-- Hypoxia-limited maximal metabolism from `calc_max_metabolism`: returns
`(max_met_w, hypoxia_factor)`. -/
def calc_max_metabolism (altitude_m : ℚ) (has_o2_support : Bool) : ℚ × ℚ :=
  let effective_alt0 := if has_o2_support then altitude_m - 3000 else altitude_m
  let effective_alt := if effective_alt0 < 0 then 0 else effective_alt0
  let hf0 := if effective_alt > 1500 then 1 - (effective_alt - 1500) / 7500 else 1
  let hypoxia_factor := if hf0 < 0.2 then 0.2 else hf0
  (1000 * hypoxia_factor, hypoxia_factor)

/-- Hypoxia factor used by `run_step` (second component of
`calc_max_metabolism`). -/
def hypoxia_of (env : Env) (c : Climber) : ℚ :=
  (calc_max_metabolism env.altitude c.o2_support).2

/-- Realized total metabolic heat `real_m = min(target_met * 80.0, max_met)`
of `run_step`. -/
def real_m_of (env : Env) (c : Climber) : ℚ :=
  min (c.target_met * 80) (calc_max_metabolism env.altitude c.o2_support).1

/-- Respiratory heat loss `q_res` of `run_step` (ventilation factor grows
with altitude). -/
def q_res_of (env : Env) (c : Climber) : ℚ :=
  0.0015 * real_m_of env c * (37 - env.temp) * (1 + env.altitude / 3000)

/-- Effective wind speed `v_eff` of `run_step`. -/
def v_eff_of (wind : ℚ) : ℚ :=
  if wind ≥ 5 then wind * 0.6 else wind

/-- Local clothing insulation `real_clo` of `run_step`: 35 % of nominal when
wet, times 0.3 for head and hands. -/
def real_clo_of (c : Climber) (name : SegName) : ℚ :=
  let rc := if c.is_wet then c.clo * 0.35 else c.clo
  if name = SegName.Head ∨ name = SegName.Hands then rc * 0.3 else rc

/-- Insulation resistance `r_insulation` of `run_step`. -/
def r_insulation_of (env : Env) (c : Climber) (name : SegName) : ℚ :=
  0.155 * real_clo_of c name + 0.1 / (1 + 0.5 * v_eff_of env.wind)

/-- Convective/conductive heat loss `q_conv` of `run_step`. -/
def q_conv_of (env : Env) (c : Climber) (name : SegName) (skin : ℚ) : ℚ :=
  (segments name).area * (skin - env.temp) / r_insulation_of env c name

/-- Solar gain `q_solar` of `run_step`. -/
def q_solar_of (env : Env) (name : SegName) : ℚ :=
  env.solar_rad * (segments name).area * (segments name).solar_w * 0.4

/-- Vasoconstriction response `vaso` of `run_step`. -/
def vaso_of (core_temp vaso_factor : ℚ) : ℚ :=
  if core_temp < 36.8 then
    1 / (1 + vaso_factor * (36.8 - core_temp) * 10)
  else 1

/-- Blood perfusion heat `q_blood` of `run_step`. -/
def q_blood_of (core_temp skin : ℚ) (name : SegName) : ℚ :=
  18 * (segments name).mass * vaso_of core_temp (segments name).vaso *
    (core_temp - skin) / 60

/-- Metabolic-heat share `local_met_ratio` of `run_step`: 0.35 for trunk and
legs, 0.1 otherwise. -/
def local_met_share (name : SegName) : ℚ :=
  if name = SegName.Trunk ∨ name = SegName.Legs then 0.35 else 0.1

/-- Per-segment realized metabolic heat `q_local_met` of `run_step`. -/
def q_local_met_of (real_m : ℚ) (name : SegName) : ℚ :=
  real_m * local_met_share name

/-- New skin temperature of one segment after one step: energy balance,
explicit-Euler delta, and the ambient floor clamp of `run_step`. -/
def seg_new_temp (env : Env) (c : Climber) (core_temp real_m skin : ℚ)
    (name : SegName) : ℚ :=
  let net_joules := (q_local_met_of real_m name + q_blood_of core_temp skin name +
    q_solar_of env name - q_conv_of env c name skin) * 60
  let dt := net_joules / ((segments name).mass * 3470)
  let new_temp := skin + dt
  if new_temp < env.temp then env.temp else new_temp

/-- Accumulated `total_blood_cooling` of `run_step`: starts at zero and
subtracts every segment's `q_blood`. -/
def total_blood_cooling_of (s : EngineState) : ℚ :=
  -((segNames.map fun name => q_blood_of s.core_temp (s.segTemp name) name).sum)

/-- One step of `run_step`, restricted to its exactly-representable parts:
returns the new engine state together with `(real_m, q_res, hypoxia)`.
The ℝ-valued air pressure is adjoined by `run_step` below. -/
def run_step_q (s : EngineState) (env : Env) (c : Climber) :
    EngineState × ℚ × ℚ × ℚ :=
  let real_m := real_m_of env c
  let q_res := q_res_of env c
  let segTemp' := fun name => seg_new_temp env c s.core_temp real_m (s.segTemp name) name
  let total_blood_cooling := total_blood_cooling_of s
  let core_net_joules := (real_m - q_res + total_blood_cooling) * 60
  let core_dt := core_net_joules / (50 * 3470)
  let core1 := s.core_temp + core_dt
  let core2 := if core1 < 36.5 then core1 + 0.001 * hypoxia_of env c else core1
  (⟨segTemp', fun name => s.segHist name ++ [segTemp' name],
    core2, s.history_core ++ [core2]⟩,
   real_m, q_res, hypoxia_of env c)

/-- The per-step report returned by `run_step`: exactly the four entries of
the source's returned dict. -/
structure StepReport where
  ap : ℝ
  real_m : ℚ
  q_res : ℚ
  hypoxia : ℚ

/-- One full step of `PhysiologyEngine.run_step`: the state mutation of
`run_step_q` plus the returned report. -/
noncomputable def run_step (s : EngineState) (env : Env) (c : Climber) :
    EngineState × StepReport :=
  let r := run_step_q s env c
  (r.1, ⟨calc_altitude_pressure env.altitude, r.2.1, r.2.2.1, r.2.2.2⟩)

/-- Iterated simulation: `n` steps from the initial state under fixed
environment and configuration (the driver loop of the source). -/
def run_n (env : Env) (c : Climber) : ℕ → EngineState
  | 0 => initState
  | n + 1 => (run_step_q (run_n env c n) env c).1

/-! ## Spec-side reference definitions (for refinement comparisons) -/

/-- Hypoxia factor as the specification words it: effective altitude is the
raw altitude minus a 3000 m oxygen-support offset, floored at zero; the
factor is 1 up to 1500 m effective altitude, declines linearly above, and is
floored at 0.2. -/
def hypoxia_factor_spec (altitude_m : ℚ) (o2 : Bool) : ℚ :=
  let ea := max 0 (if o2 then altitude_m - 3000 else altitude_m)
  if ea ≤ 1500 then 1 else max 0.2 (1 - (ea - 1500) / 7500)

/-- Local clothing insulation as the specification words it: nominal value,
reduced to 35 % when wet, further multiplied by 0.3 for head and hands. -/
def local_clo_spec (c : Climber) (name : SegName) : ℚ :=
  let base := if c.is_wet then 0.35 * c.clo else c.clo
  if name = SegName.Head ∨ name = SegName.Hands then 0.3 * base else base

/-- Effective wind speed as the specification words it: the wind itself
below 5, reduced to 60 % from 5 upwards. -/
def v_eff_spec (wind : ℚ) : ℚ := if wind < 5 then wind else wind * 0.6

/-- Across-segment sum of per-segment realized metabolic heat, aggregated as
the specification's core-update sentence words it. -/
def total_metabolic_heat_spec (real_m : ℚ) : ℚ :=
  (segNames.map fun name => q_local_met_of real_m name).sum

/-- Sample environment for concrete instantiations: 20 °C, calm air, sea
level, no sun. -/
def sampleEnv : Env := ⟨20, 0, 0, 0⟩

/-- Sample climber for concrete instantiations: resting, 1.5 Clo, dry, no
supplemental oxygen. -/
def sampleClimber : Climber := ⟨1, 1.5, false, false⟩

/-! ## Helper lemmas -/

/-- Clamping from below: the floor clamp is at least the floor. -/
theorem le_ite_clamp (t amb : ℚ) : amb ≤ if t < amb then amb else t := by
  by_cases h : t < amb
  · rw [if_pos h]
  · rw [if_neg h]
    exact le_of_not_lt h

/-- The source's hypoxia computation agrees with the specification's
wording of it. -/
theorem calc_max_metabolism_eq_spec (alt : ℚ) (o2 : Bool) :
    calc_max_metabolism alt o2 =
      (1000 * hypoxia_factor_spec alt o2, hypoxia_factor_spec alt o2) := by
  simp only [calc_max_metabolism, hypoxia_factor_spec]
  have h1 : (if (if o2 then alt - 3000 else alt) < 0 then 0
      else if o2 then alt - 3000 else alt) = max 0 (if o2 then alt - 3000 else alt) := by
    rcases le_or_lt 0 (if o2 then alt - 3000 else alt) with h | h
    · rw [if_neg (not_lt.mpr h), max_eq_right h]
    · rw [if_pos h, max_eq_left h.le]
  rw [h1]
  rcases le_or_lt (max 0 (if o2 then alt - 3000 else alt)) 1500 with h2 | h2
  · rw [if_neg (not_lt.mpr h2), if_pos h2]
    norm_num
  · rw [if_pos h2, if_neg (not_le.mpr h2)]
    rcases le_or_lt (0.2:ℚ) (1 - (max 0 (if o2 then alt - 3000 else alt) - 1500) / 7500)
      with h3 | h3
    · rw [if_neg (not_lt.mpr h3), max_eq_right h3]
    · rw [if_pos h3, max_eq_left h3.le]

/-- Effective wind speed is nonnegative for nonnegative wind. -/
theorem v_eff_nonneg (wind : ℚ) (h : 0 ≤ wind) : 0 ≤ v_eff_of wind := by
  unfold v_eff_of
  by_cases h5 : wind ≥ 5
  · rw [if_pos h5]; nlinarith
  · rw [if_neg h5]; exact h

/-- Local clothing insulation is nonnegative for nonnegative nominal
insulation. -/
theorem real_clo_nonneg (c : Climber) (name : SegName) (h : 0 ≤ c.clo) :
    0 ≤ real_clo_of c name := by
  simp only [real_clo_of]
  split_ifs <;> nlinarith

/-- Positivity of the insulation resistance. -/
theorem r_insulation_of_pos (env : Env) (c : Climber) (name : SegName)
    (hclo : 0 ≤ c.clo) (hwind : 0 ≤ env.wind) :
    0 < r_insulation_of env c name := by
  unfold r_insulation_of
  have h1 : 0 ≤ 0.155 * real_clo_of c name := by
    have := real_clo_nonneg c name hclo
    nlinarith
  have h2 : (0:ℚ) < 0.1 / (1 + 0.5 * v_eff_of env.wind) := by
    apply div_pos (by norm_num)
    have := v_eff_nonneg env.wind hwind
    nlinarith
  linarith

/-! ## Claim theorems -/

/-- C1: at the end of every step, each segment's stored skin temperature is
at least the ambient temperature supplied to that step, and exactly that
value is appended to the segment's history. -/
theorem skin_temp_ge_ambient (s : EngineState) (env : Env) (c : Climber)
    (name : SegName) :
    env.temp ≤ (run_step s env c).1.segTemp name ∧
    (run_step s env c).1.segHist name
      = s.segHist name ++ [(run_step s env c).1.segTemp name] := by
  constructor
  · show env.temp ≤ seg_new_temp env c s.core_temp (real_m_of env c) (s.segTemp name) name
    unfold seg_new_temp
    exact le_ite_clamp _ _
  · rfl

/-- C3: the vasoconstriction response is exactly 1 whenever the core is at
or above 36.8 °C, whatever the segment's vaso factor, and otherwise equals
1 / (1 + vaso_factor * (36.8 − core) * K) for the single fixed sensitivity
scale K = 10, one of the two values the specification allows. -/
theorem vaso_response_cases :
    ∃ K : ℚ, (K = 8 ∨ K = 10) ∧
      ∀ core_temp vaso_factor : ℚ,
        vaso_of core_temp vaso_factor =
          if 36.8 ≤ core_temp then 1
          else 1 / (1 + vaso_factor * (36.8 - core_temp) * K) := by
  refine ⟨10, Or.inr rfl, fun core_temp vaso_factor => ?_⟩
  unfold vaso_of
  by_cases h : core_temp < 36.8
  · rw [if_pos h, if_neg (not_le.mpr h)]
  · rw [if_neg h, if_pos (le_of_not_lt h)]

/-- C4: the realized total metabolism is the requested wattage capped by the
hypoxia ceiling, the hypoxia factor follows the specification's altitude
profile, and every segment receives its fixed share (0.35 for trunk and
legs, 0.1 for the rest) of the realized total. -/
theorem realized_metabolism_and_shares (env : Env) (c : Climber) :
    real_m_of env c =
      min (c.target_met * 80) (1000 * hypoxia_factor_spec env.altitude c.o2_support) ∧
    hypoxia_of env c = hypoxia_factor_spec env.altitude c.o2_support ∧
    ∀ name, q_local_met_of (real_m_of env c) name =
      real_m_of env c *
        (if name = SegName.Trunk ∨ name = SegName.Legs then 0.35 else 0.1) := by
  refine ⟨?_, ?_, fun name => rfl⟩
  · unfold real_m_of
    rw [calc_max_metabolism_eq_spec]
  · unfold hypoxia_of
    rw [calc_max_metabolism_eq_spec]

/-- C6: the insulation resistance used in the heat-loss term is
0.155 * local_clo + 0.1 / (1 + 0.5 * v_eff) with the wetness and
head/hands clothing corrections and the 5 km/h wind threshold as the
specification words them, and the heat loss is
area * (skin − ambient) / r_total. -/
theorem heat_loss_resistance_formula (env : Env) (c : Climber)
    (name : SegName) (skin : ℚ) :
    r_insulation_of env c name =
      0.155 * local_clo_spec c name + 0.1 / (1 + 0.5 * v_eff_spec env.wind) ∧
    q_conv_of env c name skin =
      (segments name).area * (skin - env.temp) / r_insulation_of env c name := by
  refine ⟨?_, rfl⟩
  unfold r_insulation_of
  have h1 : real_clo_of c name = local_clo_spec c name := by
    simp only [real_clo_of, local_clo_spec]
    cases hw : c.is_wet <;> split_ifs <;> ring
  have h2 : v_eff_of env.wind = v_eff_spec env.wind := by
    unfold v_eff_of v_eff_spec
    rcases lt_or_le env.wind 5 with h | h
    · rw [if_neg (not_le.mpr h), if_pos h]
    · rw [if_pos h, if_neg (not_lt.mpr h)]
  rw [h1, h2]

/-- C7: with the core below 36.8 °C, a segment with strictly larger
vasoconstriction factor receives a blood-perfusion response at most that of
a segment with a smaller, nonnegative factor. -/
theorem vaso_response_antitone (core_temp vfA vfB : ℚ)
    (hcore : core_temp < 36.8) (hB : 0 ≤ vfB) (hAB : vfB < vfA) :
    vaso_of core_temp vfA ≤ vaso_of core_temp vfB := by
  unfold vaso_of
  rw [if_pos hcore, if_pos hcore]
  have hd : 0 < 36.8 - core_temp := by linarith
  have h1 : 0 < 1 + vfB * (36.8 - core_temp) * 10 := by nlinarith
  have h2 : 1 + vfB * (36.8 - core_temp) * 10 ≤ 1 + vfA * (36.8 - core_temp) * 10 := by
    nlinarith
  exact one_div_le_one_div_of_le h1 h2

/-- Witness for C7: at a core of 36 °C the response of a factor-3 segment is
at most that of a factor-0.2 segment. -/
theorem vaso_response_antitone_witness :
    (36:ℚ) < 36.8 ∧ (0:ℚ) ≤ 0.2 ∧ (0.2:ℚ) < 3 ∧
      vaso_of 36 3 ≤ vaso_of 36 0.2 :=
  ⟨by norm_num, by norm_num, by norm_num,
    vaso_response_antitone 36 3 0.2 (by norm_num) (by norm_num) (by norm_num)⟩

/-- C9: with nonnegative clothing insulation and nonnegative wind, the
insulation resistance of every segment is strictly positive, and the other
divisors of the step (per-segment thermal mass, the 60 s perfusion divisor
and the core thermal mass) are nonzero, so no division of the step has a
zero divisor. -/
theorem step_divisors_nonzero (env : Env) (c : Climber)
    (hclo : 0 ≤ c.clo) (hwind : 0 ≤ env.wind) :
    (∀ name, 0 < r_insulation_of env c name) ∧
    (∀ name, (segments name).mass * 3470 ≠ 0) ∧
    ((50:ℚ) * 3470 ≠ 0) ∧ ((60:ℚ) ≠ 0) := by
  refine ⟨fun name => r_insulation_of_pos env c name hclo hwind,
    fun name => ?_, by norm_num, by norm_num⟩
  cases name <;> norm_num [segments]

/-- Witness for C9 at 1.5 Clo and 20 km/h wind. -/
theorem step_divisors_nonzero_witness :
    (0:ℚ) ≤ 1.5 ∧ (0:ℚ) ≤ 20 ∧
    ((∀ name, 0 < r_insulation_of ⟨-10, 20, 5000, 800⟩ ⟨3, 1.5, false, false⟩ name) ∧
     (∀ name, (segments name).mass * 3470 ≠ 0) ∧
     ((50:ℚ) * 3470 ≠ 0) ∧ ((60:ℚ) ≠ 0)) :=
  ⟨by norm_num, by norm_num,
    step_divisors_nonzero ⟨-10, 20, 5000, 800⟩ ⟨3, 1.5, false, false⟩
      (show (0:ℚ) ≤ 1.5 by norm_num) (show (0:ℚ) ≤ 20 by norm_num)⟩

/-- C10: at construction every segment history is the single sample 33 °C
and the core history the single sample 37 °C; every step appends exactly one
sample to each history, leaving the earlier entries unchanged; hence after n
steps every history has n + 1 entries and ends with the corresponding
current temperature. -/
theorem histories_append_only (env : Env) (c : Climber) (name : SegName) :
    (initState.segHist name = [33] ∧ initState.history_core = [37]) ∧
    (∀ s : EngineState,
      (run_step_q s env c).1.segHist name
          = s.segHist name ++ [(run_step_q s env c).1.segTemp name] ∧
      (run_step_q s env c).1.history_core
          = s.history_core ++ [(run_step_q s env c).1.core_temp]) ∧
    (∀ n : ℕ,
      ((run_n env c n).segHist name).length = n + 1 ∧
      ((run_n env c n).history_core).length = n + 1 ∧
      ((run_n env c n).segHist name).getLast? = some ((run_n env c n).segTemp name) ∧
      ((run_n env c n).history_core).getLast? = some ((run_n env c n).core_temp)) := by
  refine ⟨⟨rfl, rfl⟩, fun s => ⟨rfl, rfl⟩, fun n => ?_⟩
  induction n with
  | zero => exact ⟨rfl, rfl, rfl, rfl⟩
  | succ n ih =>
    obtain ⟨h1, h2, _, _⟩ := ih
    have e1 : (run_n env c (n + 1)).segHist name
        = (run_n env c n).segHist name ++ [(run_n env c (n + 1)).segTemp name] := rfl
    have e2 : (run_n env c (n + 1)).history_core
        = (run_n env c n).history_core ++ [(run_n env c (n + 1)).core_temp] := rfl
    refine ⟨?_, ?_, ?_, ?_⟩
    · rw [e1]
      simp [h1]
    · rw [e2]
      simp [h2]
    · rw [e1]
      exact List.getLast?_concat _
    · rw [e2]
      exact List.getLast?_concat _

/-- C2 (amended): after the six segment updates, the aggregation step adds
(realized total metabolism − respiratory loss + accumulated blood cooling)
* 60 / (50 kg * 3470 J/(kg·°C)) to the core and then applies the weak
shivering compensation below 36.5 °C; the realized total enters directly,
while the across-segment sum of the per-segment metabolic allocations
equals 1.1 times it (it is not what the core update uses). -/
theorem core_update_aggregation (s : EngineState) (env : Env) (c : Climber) :
    ((run_step_q s env c).1.core_temp =
      (let core1 := s.core_temp +
        (real_m_of env c - q_res_of env c + total_blood_cooling_of s) * 60 / (50 * 3470)
       if core1 < 36.5 then core1 + 0.001 * hypoxia_of env c else core1)) ∧
    total_metabolic_heat_spec (real_m_of env c) = 1.1 * real_m_of env c := by
  constructor
  · rfl
  · simp [total_metabolic_heat_spec, segNames, q_local_met_of, local_met_share]
    ring

/-- C2 counterexample: at a concrete warm step the core delta the code
applies differs from the one prescribed by accumulating the per-segment
metabolic allocations across the six segments (those allocations sum to
110 % of the realized total, which is what the code actually uses). -/
theorem core_update_claim_counterexample :
    (run_step_q initState sampleEnv sampleClimber).1.core_temp
        - initState.core_temp ≠
      (total_metabolic_heat_spec (real_m_of sampleEnv sampleClimber)
          - q_res_of sampleEnv sampleClimber
          + total_blood_cooling_of initState) * 60 / (50 * 3470) := by
  have hrm : real_m_of sampleEnv sampleClimber = 80 := by
    norm_num [real_m_of, calc_max_metabolism, sampleEnv, sampleClimber, min_def]
  have hsum : total_metabolic_heat_spec (80:ℚ) = 88 := by
    simp [total_metabolic_heat_spec, segNames, q_local_met_of, local_met_share]
    norm_num
  rw [hrm, hsum]
  norm_num [run_step_q, real_m_of, q_res_of, total_blood_cooling_of, hypoxia_of,
    calc_max_metabolism, q_blood_of, vaso_of, segments, segNames, initState,
    sampleEnv, sampleClimber, min_def]

/-- C5 (amended): every step returns a report holding exactly the air
pressure, the realized metabolism, the respiratory loss and the hypoxia
factor; the core temperature is not among the report's entries and is read
from the mutated engine state instead. -/
theorem step_report_fields (s : EngineState) (env : Env) (c : Climber) :
    (run_step s env c).2.ap = calc_altitude_pressure env.altitude ∧
    (run_step s env c).2.real_m = real_m_of env c ∧
    (run_step s env c).2.q_res = q_res_of env c ∧
    (run_step s env c).2.hypoxia = hypoxia_of env c ∧
    (run_step s env c).1.core_temp = (run_step_q s env c).1.core_temp :=
  ⟨rfl, rfl, rfl, rfl, rfl⟩

/-- C5 counterexample: at a concrete input none of the four entries of the
returned report equals the engine's current core temperature — neither the
post-step value nor the pre-step value — so the report does not contain the
core temperature. -/
theorem step_report_omits_core_temp :
    ((run_step initState sampleEnv sampleClimber).2.real_m ≠
        (run_step initState sampleEnv sampleClimber).1.core_temp ∧
     (run_step initState sampleEnv sampleClimber).2.q_res ≠
        (run_step initState sampleEnv sampleClimber).1.core_temp ∧
     (run_step initState sampleEnv sampleClimber).2.hypoxia ≠
        (run_step initState sampleEnv sampleClimber).1.core_temp ∧
     (run_step initState sampleEnv sampleClimber).2.ap ≠
        ((run_step initState sampleEnv sampleClimber).1.core_temp : ℝ)) ∧
    ((run_step initState sampleEnv sampleClimber).2.real_m ≠ initState.core_temp ∧
     (run_step initState sampleEnv sampleClimber).2.q_res ≠ initState.core_temp ∧
     (run_step initState sampleEnv sampleClimber).2.hypoxia ≠ initState.core_temp ∧
     (run_step initState sampleEnv sampleClimber).2.ap ≠ (initState.core_temp : ℝ)) := by
  have hrm : (run_step initState sampleEnv sampleClimber).2.real_m = 80 := by
    show real_m_of sampleEnv sampleClimber = 80
    norm_num [real_m_of, calc_max_metabolism, sampleEnv, sampleClimber, min_def]
  have hqres : (run_step initState sampleEnv sampleClimber).2.q_res = 51/25 := by
    show q_res_of sampleEnv sampleClimber = 51/25
    norm_num [q_res_of, real_m_of, calc_max_metabolism, sampleEnv, sampleClimber, min_def]
  have hhyp : (run_step initState sampleEnv sampleClimber).2.hypoxia = 1 := by
    show hypoxia_of sampleEnv sampleClimber = 1
    norm_num [hypoxia_of, calc_max_metabolism, sampleEnv, sampleClimber]
  have hap : (run_step initState sampleEnv sampleClimber).2.ap = 1013.25 := by
    show calc_altitude_pressure sampleEnv.altitude = 1013.25
    norm_num [calc_altitude_pressure, sampleEnv, Real.one_rpow]
  have hcore : (run_step initState sampleEnv sampleClimber).1.core_temp
      = 8025551/216875 := by
    show (run_step_q initState sampleEnv sampleClimber).1.core_temp = 8025551/216875
    norm_num [run_step_q, real_m_of, q_res_of, total_blood_cooling_of, hypoxia_of,
      calc_max_metabolism, q_blood_of, vaso_of, segments, segNames, initState,
      sampleEnv, sampleClimber, min_def]
  have hinit : initState.core_temp = 37 := rfl
  refine ⟨⟨?_, ?_, ?_, ?_⟩, ?_, ?_, ?_, ?_⟩
  · rw [hrm, hcore]; norm_num
  · rw [hqres, hcore]; norm_num
  · rw [hhyp, hcore]; norm_num
  · rw [hap, hcore]; push_cast; norm_num
  · rw [hrm, hinit]; norm_num
  · rw [hqres, hinit]; norm_num
  · rw [hhyp, hinit]; norm_num
  · rw [hap, hinit]; push_cast; norm_num

/-- C8 (amended): with positive clothing insulation, nonnegative wind speed
and skin strictly above ambient, flipping only the wetness flag strictly
increases the segment's computed heat loss at equal state (at the ambient
floor, where skin equals ambient, both losses vanish and are equal). -/
theorem wet_heat_loss_larger (env : Env) (c : Climber) (name : SegName) (skin : ℚ)
    (hclo : 0 < c.clo) (hwind : 0 ≤ env.wind) (hskin : env.temp < skin) :
    q_conv_of env { c with is_wet := false } name skin <
      q_conv_of env { c with is_wet := true } name skin := by
  obtain ⟨tm, clo, wet, o2⟩ := c
  dsimp only at hclo ⊢
  have harea : 0 < (segments name).area := by cases name <;> norm_num [segments]
  have hnum : 0 < (segments name).area * (skin - env.temp) := by nlinarith
  have hC : (0:ℚ) < 0.1 / (1 + 0.5 * v_eff_of env.wind) := by
    apply div_pos (by norm_num)
    have := v_eff_nonneg env.wind hwind
    nlinarith
  have hwet : real_clo_of ⟨tm, clo, true, o2⟩ name
      = 0.35 * real_clo_of ⟨tm, clo, false, o2⟩ name := by
    simp only [real_clo_of]
    split_ifs <;> first | exact ‹False›.elim | ring
  have hdrypos : 0 < real_clo_of ⟨tm, clo, false, o2⟩ name := by
    simp only [real_clo_of]
    split_ifs <;> first | exact ‹False›.elim | nlinarith
  have hrlt : r_insulation_of env ⟨tm, clo, true, o2⟩ name
      < r_insulation_of env ⟨tm, clo, false, o2⟩ name := by
    unfold r_insulation_of
    rw [hwet]
    nlinarith [hdrypos]
  have hrpos : 0 < r_insulation_of env ⟨tm, clo, true, o2⟩ name := by
    unfold r_insulation_of
    rw [hwet]
    nlinarith [hdrypos, hC]
  exact div_lt_div_of_pos_left hnum hrpos hrlt

/-- Witness for C8: at −10 °C, 20 km/h wind and 1.5 Clo, the trunk's wet
heat loss at 33 °C skin exceeds its dry heat loss. -/
theorem wet_heat_loss_larger_witness :
    (0:ℚ) < 1.5 ∧ (0:ℚ) ≤ 20 ∧ (-10:ℚ) < 33 ∧
      q_conv_of ⟨-10, 20, 0, 0⟩ ⟨1, 1.5, false, false⟩ SegName.Trunk 33 <
        q_conv_of ⟨-10, 20, 0, 0⟩ ⟨1, 1.5, true, false⟩ SegName.Trunk 33 :=
  ⟨by norm_num, by norm_num, by norm_num,
    wet_heat_loss_larger ⟨-10, 20, 0, 0⟩ ⟨1, 1.5, false, false⟩ SegName.Trunk 33
      (show (0:ℚ) < 1.5 by norm_num) (show (0:ℚ) ≤ 20 by norm_num)
      (show (-10:ℚ) < 33 by norm_num)⟩

/-- C8 counterexample: with ambient equal to the 33 °C initial skin
temperature the wet and dry heat losses coincide (both vanish), so the wet
loss is not strictly larger; and with a negative wind speed — accepted by
the unvalidated interface — the wet loss can even be strictly smaller. -/
theorem wet_heat_loss_claim_counterexample :
    ¬ (q_conv_of ⟨33, 0, 0, 0⟩ ⟨1, 1.5, false, false⟩ SegName.Head 33 <
        q_conv_of ⟨33, 0, 0, 0⟩ ⟨1, 1.5, true, false⟩ SegName.Head 33) ∧
    q_conv_of ⟨-10, -4, 0, 0⟩ ⟨1, 1, true, false⟩ SegName.Trunk 33 <
      q_conv_of ⟨-10, -4, 0, 0⟩ ⟨1, 1, false, false⟩ SegName.Trunk 33 := by
  constructor
  · norm_num [q_conv_of, r_insulation_of, real_clo_of, v_eff_of, segments]
  · simp [q_conv_of, r_insulation_of, real_clo_of, v_eff_of, segments]
    norm_num
